import Mathlib

/-!
Shallow embedding of the WanderLanka community-service moderation and
recommendation engine.

Moderation side (src/models/Comment.js report schema, src/unnamed/part_002
BlogPost methods, src/routes/commentRoutes.js POST /posts/:postId/report):
reports carry a weighted score (reason weight x reporter credibility); an
escalation check sums non-dismissed report scores over sliding time windows
and may flag the post.

Recommendation side (src/services/recommendationService.js): posts are
scored either by a personalized scorer (driven by locations extracted from
the user's itineraries) or a generic scorer.

Timestamps are modelled as integer milliseconds since the epoch; JS float
arithmetic on scores is idealized as rational arithmetic.
-/

namespace CommunityService

/-- Flag severity tiers used by the auto-flag escalation policy. -/
inductive Severity
| none
| moderate
| high
| critical
deriving DecidableEq, Repr

/-- Rank of a severity in the order none < moderate < high < critical. -/
def sevRank : Severity → Nat
| Severity.none => 0
| Severity.moderate => 1
| Severity.high => 2
| Severity.critical => 3

/-- Report document status (report schema `status` enum). -/
inductive RStatus
| pending
| reviewed
| dismissed
| actionTaken
deriving DecidableEq, Repr

/-- A Report document (report schema in src/models/Comment.js), restricted to
the fields the moderation flow reads. -/
structure Report where
  reporterId : Nat
  accountCreatedAt : Int
  isVerified : Bool
  createdAt : Int
  reasonWeight : ℚ
  credibilityWeight : ℚ
  weightedScore : ℚ
  status : RStatus
deriving DecidableEq, Repr

/-- `reportSchema.statics.calculateCredibilityWeight`: account age in whole
days (Math.floor of the fractional-day difference) selects the tier weight
(CREDIBILITY_TIERS), and verified reporters get a further 1.5x boost. -/
def calculateCredibilityWeight (nowMs accountCreatedAtMs : Int) (isVerified : Bool) : ℚ :=
  let accountAge : Int := ⌊((nowMs - accountCreatedAtMs : ℚ) / (1000 * 60 * 60 * 24))⌋
  let tier : ℚ :=
    if accountAge < 7 then 1/2
    else if accountAge < 30 then 1
    else if accountAge < 90 then 3/2
    else 2
  if isVerified then tier * (3/2) else tier

/-- Aggregate returned by `getPostReportStats`, restricted to the fields the
escalation check reads. -/
structure ReportStats where
  totalReports : Nat
  totalWeightedScore : ℚ
deriving DecidableEq, Repr

/-- Status filter of `getPostReportStats`: only `pending` and `reviewed`
reports count. -/
def nonDismissed (r : Report) : Bool :=
  r.status == RStatus.pending || r.status == RStatus.reviewed

/-- Time-window filter of `getPostReportStats`: `createdAt >= now - hours`. -/
def inWindow (nowMs : Int) (timeWindowHours : Int) (r : Report) : Bool :=
  nowMs - timeWindowHours * (60 * 60 * 1000) ≤ r.createdAt

/-- `reportSchema.statics.getPostReportStats`: aggregates the non-dismissed
reports of the post, optionally restricted to a trailing time window; the
Mongo aggregation yields no row (modelled `none`) when no report matches. -/
def getPostReportStats (reports : List Report) (nowMs : Int)
    (timeWindowHours : Option Int) : Option ReportStats :=
  let matched := reports.filter fun r =>
    nonDismissed r &&
      (match timeWindowHours with
       | Option.some w => inWindow nowMs w r
       | Option.none => true)
  if matched.isEmpty then Option.none
  else Option.some
    { totalReports := matched.length,
      totalWeightedScore := (matched.map Report.weightedScore).sum }

/-- `stats && stats.totalWeightedScore >= threshold` in `shouldAutoFlag`. -/
def statsMeets (s : Option ReportStats) (threshold : ℚ) : Bool :=
  match s with
  | Option.some st => threshold ≤ st.totalWeightedScore
  | Option.none => false

/-- Decision record returned by `shouldAutoFlag`. -/
structure AutoFlagResult where
  shouldFlag : Bool
  severity : Severity
deriving DecidableEq, Repr

/-- `reportSchema.statics.shouldAutoFlag`: checks the 1-hour window against
threshold 15 (critical), then the 24-hour window against 30 (high), then the
7-day window against 50 (moderate); otherwise no flag, severity none. -/
def shouldAutoFlag (reports : List Report) (nowMs : Int) : AutoFlagResult :=
  let immediateStats := getPostReportStats reports nowMs (Option.some 1)
  if statsMeets immediateStats 15 then
    { shouldFlag := true, severity := Severity.critical }
  else
    let moderateStats := getPostReportStats reports nowMs (Option.some 24)
    if statsMeets moderateStats 30 then
      { shouldFlag := true, severity := Severity.high }
    else
      let lowStats := getPostReportStats reports nowMs (Option.some 168)
      if statsMeets lowStats 50 then
        { shouldFlag := true, severity := Severity.moderate }
      else
        { shouldFlag := false, severity := Severity.none }

/-- Total weighted score of the non-dismissed reports inside the trailing
window of `hours` hours, as summed by the aggregation. -/
def windowScore (reports : List Report) (nowMs : Int) (hours : Int) : ℚ :=
  ((reports.filter fun r => nonDismissed r && inWindow nowMs hours r).map
    Report.weightedScore).sum

/-- Moderation-relevant state of a BlogPost document (src/unnamed/part_002). -/
structure PostState where
  authorId : Nat
  reportCount : Nat
  totalReportScore : ℚ
  isFlagged : Bool
  flagSeverity : Severity
deriving DecidableEq, Repr

/-- `blogPostSchema.methods.addReport`. -/
def PostState.addReport (p : PostState) (weightedScore : ℚ) : PostState :=
  { p with reportCount := p.reportCount + 1,
           totalReportScore := p.totalReportScore + weightedScore }

/-- `blogPostSchema.methods.flagPost` (flagReason/flaggedAt omitted: no claim
reads them). -/
def PostState.flagPost (p : PostState) (severity : Severity) : PostState :=
  { p with isFlagged := true, flagSeverity := severity }

/-- Authenticated reporter context (`req.user`): `createdAt` is absent when
the token carries no account-creation timestamp. -/
structure ReporterCtx where
  userId : Nat
  createdAt : Option Int
  isVerified : Bool
deriving DecidableEq, Repr

/-- Persistent state touched by the report route: the post plus its Report
documents (most recent first). -/
structure ModState where
  post : PostState
  reports : List Report
deriving DecidableEq, Repr

/-- Early-rejection outcomes of the report route (HTTP 400 responses). -/
inductive ReportError
| selfReport
| alreadyReported
deriving DecidableEq, Repr

/-- Success payload of the report route (`data` object of the 201 response),
restricted to the fields the spec talks about. -/
structure ReportResponse where
  reportWeightedScore : ℚ
  reportCount : Nat
  totalReportScore : ℚ
  isFlagged : Bool
  flagSeverity : Severity
  autoFlagged : Bool
deriving DecidableEq, Repr

/-- POST /posts/:postId/report handler (src/routes/commentRoutes.js): reject
self-reports and duplicate reporters before anything is written; otherwise
compute the weights (defaulting a missing account-creation date to 30 days
before now), persist the report, bump the post counters, run the escalation
check over the full history including the new report, flag the post only when
it is not already flagged, and answer with the post state and
`autoFlagged = autoFlagResult.shouldFlag`. -/
def submitReport (st : ModState) (reporter : ReporterCtx) (reasonWeight : ℚ)
    (nowMs : Int) : Except ReportError (ModState × ReportResponse) :=
  if st.post.authorId = reporter.userId then
    Except.error ReportError.selfReport
  else if st.reports.any fun r => r.reporterId == reporter.userId then
    Except.error ReportError.alreadyReported
  else
    let accountCreatedAt := reporter.createdAt.getD (nowMs - 30 * 24 * 60 * 60 * 1000)
    let credibilityWeight := calculateCredibilityWeight nowMs accountCreatedAt reporter.isVerified
    let weightedScore := reasonWeight * credibilityWeight
    let report : Report :=
      { reporterId := reporter.userId,
        accountCreatedAt := accountCreatedAt,
        isVerified := reporter.isVerified,
        createdAt := nowMs,
        reasonWeight := reasonWeight,
        credibilityWeight := credibilityWeight,
        weightedScore := weightedScore,
        status := RStatus.pending }
    let reports2 := report :: st.reports
    let post1 := st.post.addReport weightedScore
    let autoFlagResult := shouldAutoFlag reports2 nowMs
    let post2 :=
      if autoFlagResult.shouldFlag && !post1.isFlagged then
        post1.flagPost autoFlagResult.severity
      else post1
    Except.ok
      ({ post := post2, reports := reports2 },
       { reportWeightedScore := weightedScore,
         reportCount := post2.reportCount,
         totalReportScore := post2.totalReportScore,
         isFlagged := post2.isFlagged,
         flagSeverity := post2.flagSeverity,
         autoFlagged := autoFlagResult.shouldFlag })

/-- One report-submission request. -/
structure SubmitArgs where
  reporter : ReporterCtx
  reasonWeight : ℚ
  nowMs : Int
deriving DecidableEq, Repr

/-- State after one submission attempt: a rejected submission leaves the
state untouched. -/
def stepReport (st : ModState) (a : SubmitArgs) : ModState :=
  match submitReport st a.reporter a.reasonWeight a.nowMs with
  | Except.ok (st2, _) => st2
  | Except.error _ => st

/-- State after a sequence of submission attempts. -/
def runReports (st : ModState) : List SubmitArgs → ModState
| [] => st
| a :: rest => runReports (stepReport st a) rest

/-- Flag-state sanity: an unflagged post has severity `none` (both the schema
default and `unflagPost` establish this). -/
def WellFormedFlag (st : ModState) : Prop :=
  st.post.isFlagged = false → st.post.flagSeverity = Severity.none

/-! ## Recommendation service (src/services/recommendationService.js)

JS strings are modelled by `String`, with the empty string standing for an
absent (undefined) optional string, matching JS truthiness on strings. -/

/-- Whether `small` occurs as a contiguous subsequence of the character
list. -/
def containsSeq (small : List Char) : List Char → Bool
| [] => small.isEmpty
| c :: tl => small.isPrefixOf (c :: tl) || containsSeq small tl

/-- `s.includes(t)` on JS strings. -/
def strIncludes (s t : String) : Bool :=
  containsSeq t.toList s.toList

/-- Fields of a blog post read by the two scorers. -/
structure RecPost where
  likesCount : Nat
  commentsCount : Nat
  viewsCount : Nat
  tags : List String
  locationName : String
  imagesCount : Nat
  isFlagged : Bool
  createdAt : Int
deriving DecidableEq, Repr

/-- `calculateEngagementScore`: likes x 3 + comments x 5 + views x 0.1. -/
def calculateEngagementScore (post : RecPost) : ℚ :=
  (post.likesCount : ℚ) * 3 + (post.commentsCount : ℚ) * 5 +
    (post.viewsCount : ℚ) * (1/10)

/-- Body of `calculateRecencyScore` after `daysDiff` (a fractional number of
days) is computed. -/
def recencyOfAge (daysDiff : ℚ) : ℚ :=
  if daysDiff ≤ 7 then 100
  else if daysDiff ≤ 30 then 100 - (daysDiff - 7) * 2
  else if daysDiff ≤ 90 then 50 - (daysDiff - 30) * (1/2)
  else max 0 (20 - (daysDiff - 90) * (1/10))

/-- `calculateRecencyScore`: age in continuous days from the timestamps, then
the piecewise schedule. -/
def calculateRecencyScore (nowMs createdAtMs : Int) : ℚ :=
  recencyOfAge ((nowMs - createdAtMs : ℚ) / (1000 * 60 * 60 * 24))

/-- `isLocationMatch`: two-directional fuzzy substring test between the post
location and each of the user's location tokens. -/
def isLocationMatch (postLocation : String) (userLocations : List String) : Bool :=
  if postLocation = "" then false
  else
    let postLoc := postLocation.toLower.trim
    userLocations.any fun userLoc =>
      (strIncludes postLoc userLoc || strIncludes userLoc postLoc) ||
        ((postLoc.splitOn ",").map String.trim).any fun part =>
          part == userLoc || strIncludes userLoc part

/-- Preference categories extracted from itineraries
(`extractUserPreferences` output). -/
structure UserPreferences where
  budgetTypes : List String
  accommodationTypes : List String
  transportationTypes : List String
deriving DecidableEq, Repr

/-- Tags considered relevant by the personalized scorer. -/
def relevantTags : List String :=
  ["experience", "tips", "guide", "adventure", "food", "culture"]

/-- `calculatePersonalizedScore`: location match (+100), relevant-tag matches
(x15), half the engagement score, 0.3 x recency, +10 for images, then a 0.5x
penalty when flagged. `userPreferences` is accepted but unused, as in the
source. -/
def calculatePersonalizedScore (nowMs : Int) (post : RecPost)
    (userLocations : List String) (_userPreferences : UserPreferences) : ℚ :=
  let s1 : ℚ := if isLocationMatch post.locationName userLocations then 100 else 0
  let matchingTags := post.tags.filter fun tag => relevantTags.contains tag.toLower
  let s2 : ℚ := (matchingTags.length : ℚ) * 15
  let s3 : ℚ := calculateEngagementScore post * (1/2)
  let s4 : ℚ := calculateRecencyScore nowMs post.createdAt * (3/10)
  let s5 : ℚ := if post.imagesCount > 0 then 10 else 0
  let score := s1 + s2 + s3 + s4 + s5
  if post.isFlagged then score * (1/2) else score

/-- The additive part of the personalized score (all contributions before the
flag penalty). -/
def personalizedAdditive (nowMs : Int) (post : RecPost)
    (userLocations : List String) : ℚ :=
  (if isLocationMatch post.locationName userLocations then (100 : ℚ) else 0) +
    ((post.tags.filter fun tag => relevantTags.contains tag.toLower).length : ℚ) * 15 +
    calculateEngagementScore post * (1/2) +
    calculateRecencyScore nowMs post.createdAt * (3/10) +
    (if post.imagesCount > 0 then (10 : ℚ) else 0)

/-- Fixed list of popular Sri Lankan destinations used by the generic
scorer. -/
def popularLocations : List String :=
  ["colombo", "kandy", "galle", "ella", "sigiriya", "nuwara eliya",
   "mirissa", "unawatuna", "arugam bay", "yala", "trincomalee"]

/-- `calculateGenericScore`: full engagement, half recency, +30 for popular
destinations, tag count x 5, +15 for images, then a 0.3x penalty when
flagged. -/
def calculateGenericScore (nowMs : Int) (post : RecPost) : ℚ :=
  let s1 : ℚ := calculateEngagementScore post
  let s2 : ℚ := calculateRecencyScore nowMs post.createdAt * (1/2)
  let s3 : ℚ :=
    if post.locationName ≠ "" &&
        popularLocations.any (fun loc => strIncludes post.locationName.toLower loc) then
      30
    else 0
  let s4 : ℚ := (post.tags.length : ℚ) * 5
  let s5 : ℚ := if post.imagesCount > 0 then 15 else 0
  let score := s1 + s2 + s3 + s4 + s5
  if post.isFlagged then score * (3/10) else score

/-- The additive part of the generic score (all contributions before the flag
penalty). -/
def genericAdditive (nowMs : Int) (post : RecPost) : ℚ :=
  calculateEngagementScore post +
    calculateRecencyScore nowMs post.createdAt * (1/2) +
    (if post.locationName ≠ "" &&
        popularLocations.any (fun loc => strIncludes post.locationName.toLower loc) then
      (30 : ℚ)
    else 0) +
    (post.tags.length : ℚ) * 5 +
    (if post.imagesCount > 0 then (15 : ℚ) else 0)

/-! ## Itineraries and the travel profile (`extractLocationsFromItineraries`,
`extractUserPreferences`, and the personalized/generic branch of
`getRecommendedPosts`). -/

/-- A place inside a day plan (name and address; "" = absent). -/
structure Place where
  name : String
  address : String
deriving DecidableEq, Repr

/-- A day plan: its places and the accommodation address ("" = absent). -/
structure DayPlan where
  places : List Place
  accommodationAddress : String
deriving DecidableEq, Repr

/-- An itinerary as read by the signal extractors ("" = absent field). -/
structure Itinerary where
  startLocationName : String
  endLocationName : String
  dayPlans : List DayPlan
  destinationNames : List String
  prefBudget : String
  prefAccommodation : String
  prefTransportation : String
deriving DecidableEq, Repr

/-- JS `Set.add` followed by `Array.from`: append if not already present,
preserving insertion order. -/
def addUnique (acc : List String) (s : String) : List String :=
  if s ∈ acc then acc else acc ++ [s]

/-- `.toLowerCase().trim()` normalization applied to location tokens. -/
def normToken (s : String) : String :=
  s.toLower.trim

/-- `address.split(',')[0].toLowerCase().trim()`: the city part of an
address. -/
def cityOf (address : String) : String :=
  normToken (((address.splitOn ",").headD ""))

/-- Locations contributed by one place of a day plan. -/
def placeLocs (acc : List String) (place : Place) : List String :=
  let acc1 := if place.name ≠ "" then addUnique acc (normToken place.name) else acc
  if place.address ≠ "" then
    let city := cityOf place.address
    if city ≠ "" then addUnique acc1 city else acc1
  else acc1

/-- Locations contributed by one day plan (places, then accommodation). -/
def dayLocs (acc : List String) (day : DayPlan) : List String :=
  let acc1 := day.places.foldl placeLocs acc
  if day.accommodationAddress ≠ "" then
    let city := cityOf day.accommodationAddress
    if city ≠ "" then addUnique acc1 city else acc1
  else acc1

/-- Locations contributed by one itinerary (start/end locations, day plans,
destinations). -/
def itineraryLocs (acc : List String) (it : Itinerary) : List String :=
  let acc1 :=
    if it.startLocationName ≠ "" then addUnique acc (normToken it.startLocationName) else acc
  let acc2 :=
    if it.endLocationName ≠ "" then addUnique acc1 (normToken it.endLocationName) else acc1
  let acc3 := it.dayPlans.foldl dayLocs acc2
  it.destinationNames.foldl
    (fun a n => if n ≠ "" then addUnique a (normToken n) else a) acc3

/-- `extractLocationsFromItineraries`: the deduplicated normalized location
tokens of all itineraries, in insertion order. -/
def extractLocationsFromItineraries (itineraries : List Itinerary) : List String :=
  itineraries.foldl itineraryLocs []

/-- Preference categories contributed by one itinerary. -/
def itineraryPrefs (acc : UserPreferences) (it : Itinerary) : UserPreferences :=
  let b := if it.prefBudget ≠ "" then addUnique acc.budgetTypes it.prefBudget
           else acc.budgetTypes
  let a := if it.prefAccommodation ≠ "" then addUnique acc.accommodationTypes it.prefAccommodation
           else acc.accommodationTypes
  let t := if it.prefTransportation ≠ "" then addUnique acc.transportationTypes it.prefTransportation
           else acc.transportationTypes
  { budgetTypes := b, accommodationTypes := a, transportationTypes := t }

/-- `extractUserPreferences`. -/
def extractUserPreferences (itineraries : List Itinerary) : UserPreferences :=
  itineraries.foldl itineraryPrefs { budgetTypes := [], accommodationTypes := [], transportationTypes := [] }

/-- The two mutually exclusive scoring strategies. -/
inductive RankPath
| personalized
| generic
deriving DecidableEq, Repr

/-- The branch of `getRecommendedPosts`: personalized iff the fetched
itinerary list is non-empty (`itineraries && itineraries.length > 0`). -/
def rankingPath (itineraries : List Itinerary) : RankPath :=
  if itineraries.length > 0 then RankPath.personalized else RankPath.generic

/-- Emptiness of the derived travel profile: no location tokens and no
preference categories. -/
def profileEmpty (itineraries : List Itinerary) : Prop :=
  extractLocationsFromItineraries itineraries = [] ∧
    extractUserPreferences itineraries =
      { budgetTypes := [], accommodationTypes := [], transportationTypes := [] }

/-! ## Concrete scenarios used for witnesses and counterexamples. -/

/-- Milliseconds per day. -/
def msPerDay : Int := 86400000

/-- Milliseconds per hour. -/
def msPerHour : Int := 3600000

/-- A pending report of weighted score 9 (reason weight 3, verified veteran
reporter: credibility 3) submitted at time `t`. -/
def pendingReport (uid : Nat) (t : Int) : Report :=
  { reporterId := uid, accountCreatedAt := 0, isVerified := false,
    createdAt := t, reasonWeight := 3, credibilityWeight := 3,
    weightedScore := 9, status := RStatus.pending }

/-- A post flagged `moderate` after a week of reports, the latest two of
which land inside the same hour: the next report pushes the 1-hour window to
18 >= 15, i.e. a `critical` escalation result. -/
def burstFlaggedState : ModState :=
  { post := { authorId := 0, reportCount := 7, totalReportScore := 63,
              isFlagged := true, flagSeverity := Severity.moderate },
    reports := [pendingReport 10 0, pendingReport 11 msPerDay,
                pendingReport 12 (2*msPerDay), pendingReport 13 (3*msPerDay),
                pendingReport 14 (4*msPerDay), pendingReport 15 (5*msPerDay),
                pendingReport 16 (5*msPerDay + msPerHour)] }

/-- Submission time for the burst scenario: half an hour after the latest
report. -/
def burstNow : Int := 5*msPerDay + msPerHour + 1800000

/-- Verified veteran reporter (account 100 days old) for the burst
scenario. -/
def burstReporter : ReporterCtx :=
  { userId := 2, createdAt := Option.some (burstNow - 100*msPerDay),
    isVerified := true }

/-- The burst submission request (reason weight 3, e.g. VIOLENCE). -/
def burstArgs : SubmitArgs :=
  { reporter := burstReporter, reasonWeight := 3, nowMs := burstNow }

/-- A post flagged `moderate` on six day-spaced reports; the next report
keeps only the 7-day window above threshold (63 >= 50). -/
def slowFlaggedState : ModState :=
  { post := { authorId := 0, reportCount := 6, totalReportScore := 54,
              isFlagged := true, flagSeverity := Severity.moderate },
    reports := [pendingReport 10 0, pendingReport 11 msPerDay,
                pendingReport 12 (2*msPerDay), pendingReport 13 (3*msPerDay),
                pendingReport 14 (4*msPerDay), pendingReport 15 (5*msPerDay)] }

/-- Submission time for the slow scenario: a day and a half after the latest
report, so the 1-hour and 24-hour windows hold only the new report. -/
def slowNow : Int := 6*msPerDay + 12*msPerHour

/-- Verified veteran reporter for the slow scenario. -/
def slowReporter : ReporterCtx :=
  { userId := 3, createdAt := Option.some (slowNow - 100*msPerDay),
    isVerified := true }

/-- Expected state after the slow-scenario submission: the report is stored
and the counters move, but the flag state is untouched. -/
def slowAfterState : ModState :=
  { post := { authorId := 0, reportCount := 7, totalReportScore := 63,
              isFlagged := true, flagSeverity := Severity.moderate },
    reports := { reporterId := 3, accountCreatedAt := slowNow - 100*msPerDay,
                 isVerified := true, createdAt := slowNow, reasonWeight := 3,
                 credibilityWeight := 3, weightedScore := 9,
                 status := RStatus.pending } :: slowFlaggedState.reports }

/-- Expected response of the slow-scenario submission: `autoFlagged = true`
although the flag state did not change. -/
def slowResponse : ReportResponse :=
  { reportWeightedScore := 9, reportCount := 7, totalReportScore := 63,
    isFlagged := true, flagSeverity := Severity.moderate, autoFlagged := true }

/-- A fresh unreported, unflagged post. -/
def quietState : ModState :=
  { post := { authorId := 0, reportCount := 0, totalReportScore := 0,
              isFlagged := false, flagSeverity := Severity.none },
    reports := [] }

/-- Reporter whose token carries no account-creation timestamp. -/
def agelessReporter : ReporterCtx :=
  { userId := 5, createdAt := Option.none, isVerified := true }

/-- Unverified veteran reporter used for simple successful submissions. -/
def plainReporter : ReporterCtx :=
  { userId := 1, createdAt := Option.some (1000*msPerDay - 100*msPerDay),
    isVerified := false }

/-- A late reference time for the quiet-post scenarios. -/
def quietNow : Int := 1000*msPerDay

/-- A state holding an earlier report by reporter 1 on the quiet post, used
to exercise the duplicate-reporter rejection. -/
def dupState : ModState :=
  { post := { authorId := 0, reportCount := 1, totalReportScore := 2,
              isFlagged := false, flagSeverity := Severity.none },
    reports := [{ reporterId := 1, accountCreatedAt := 900*msPerDay,
                  isVerified := false, createdAt := quietNow - msPerHour,
                  reasonWeight := 1, credibilityWeight := 2, weightedScore := 2,
                  status := RStatus.pending }] }

/-- A reporter context belonging to the author of the quiet post (user 0),
used to exercise the self-report rejection. -/
def authorReporter : ReporterCtx :=
  { userId := 0, createdAt := Option.none, isVerified := false }

/-- An itinerary whose every extractable field is absent: it contributes
nothing to the derived travel profile. -/
def emptyItinerary : Itinerary :=
  { startLocationName := "", endLocationName := "", dayPlans := [],
    destinationNames := [], prefBudget := "", prefAccommodation := "",
    prefTransportation := "" }

/-- Expected state after the burst-scenario submission: counters move but
the flag state stays `moderate` although the escalation result is
`critical`. -/
def burstAfterState : ModState :=
  { post := { authorId := 0, reportCount := 8, totalReportScore := 72,
              isFlagged := true, flagSeverity := Severity.moderate },
    reports := { reporterId := 2, accountCreatedAt := burstNow - 100*msPerDay,
                 isVerified := true, createdAt := burstNow, reasonWeight := 3,
                 credibilityWeight := 3, weightedScore := 9,
                 status := RStatus.pending } :: burstFlaggedState.reports }

/-- Expected response of the burst-scenario submission. -/
def burstResponse : ReportResponse :=
  { reportWeightedScore := 9, reportCount := 8, totalReportScore := 72,
    isFlagged := true, flagSeverity := Severity.moderate, autoFlagged := true }

/-- Expected state after reporter 1 reports the quiet post (weighted score
2: reason weight 1, unverified veteran credibility 2). -/
def quietAfterState : ModState :=
  { post := { authorId := 0, reportCount := 1, totalReportScore := 2,
              isFlagged := false, flagSeverity := Severity.none },
    reports := [{ reporterId := 1, accountCreatedAt := 900*msPerDay,
                  isVerified := false, createdAt := quietNow, reasonWeight := 1,
                  credibilityWeight := 2, weightedScore := 2,
                  status := RStatus.pending }] }

/-- Expected response for the quiet-post submission. -/
def quietResponse : ReportResponse :=
  { reportWeightedScore := 2, reportCount := 1, totalReportScore := 2,
    isFlagged := false, flagSeverity := Severity.none, autoFlagged := false }

/-- Expected state after the ageless reporter (no account-creation date,
verified) reports the quiet post with reason weight 2: the stored account
creation date is 30 days before `quietNow` and the credibility weight is
1.5 x 1.5 = 2.25. -/
def agelessAfterState : ModState :=
  { post := { authorId := 0, reportCount := 1, totalReportScore := 9/2,
              isFlagged := false, flagSeverity := Severity.none },
    reports := [{ reporterId := 5, accountCreatedAt := quietNow - 30*msPerDay,
                  isVerified := true, createdAt := quietNow, reasonWeight := 2,
                  credibilityWeight := 9/4, weightedScore := 9/2,
                  status := RStatus.pending }] }

/-- Expected response for the ageless-reporter submission. -/
def agelessResponse : ReportResponse :=
  { reportWeightedScore := 9/2, reportCount := 1, totalReportScore := 9/2,
    isFlagged := false, flagSeverity := Severity.none, autoFlagged := false }

/-- The Report document a successful submission persists (matches the
construction inside `submitReport`). -/
def newReportOf (reporter : ReporterCtx) (reasonWeight : ℚ) (nowMs : Int) : Report :=
  let accountCreatedAt := reporter.createdAt.getD (nowMs - 30 * 24 * 60 * 60 * 1000)
  let credibilityWeight := calculateCredibilityWeight nowMs accountCreatedAt reporter.isVerified
  { reporterId := reporter.userId,
    accountCreatedAt := accountCreatedAt,
    isVerified := reporter.isVerified,
    createdAt := nowMs,
    reasonWeight := reasonWeight,
    credibilityWeight := credibilityWeight,
    weightedScore := reasonWeight * credibilityWeight,
    status := RStatus.pending }

/-! ## Helper lemmas -/

theorem statsMeets_window (reports : List Report) (nowMs : Int) (w : Int) (t : ℚ)
    (ht : 0 < t) :
    statsMeets (getPostReportStats reports nowMs (Option.some w)) t =
      decide (t ≤ windowScore reports nowMs w) := by
  unfold statsMeets getPostReportStats windowScore
  dsimp only
  by_cases hE : ((reports.filter fun r => nonDismissed r && inWindow nowMs w r).isEmpty : Bool)
  · rw [if_pos hE]
    rw [List.isEmpty_iff] at hE
    rw [hE]
    simp only [List.map_nil, List.sum_nil]
    exact (decide_eq_false (by linarith)).symm
  · rw [if_neg hE]

theorem shouldAutoFlag_eq_firstWindow (reports : List Report) (nowMs : Int) :
    shouldAutoFlag reports nowMs =
      (if 15 ≤ windowScore reports nowMs 1 then
        { shouldFlag := true, severity := Severity.critical }
       else if 30 ≤ windowScore reports nowMs 24 then
        { shouldFlag := true, severity := Severity.high }
       else if 50 ≤ windowScore reports nowMs 168 then
        { shouldFlag := true, severity := Severity.moderate }
       else { shouldFlag := false, severity := Severity.none }) := by
  have h1 := statsMeets_window reports nowMs 1 15 (by norm_num)
  have h2 := statsMeets_window reports nowMs 24 30 (by norm_num)
  have h3 := statsMeets_window reports nowMs 168 50 (by norm_num)
  unfold shouldAutoFlag
  simp only [h1, h2, h3, decide_eq_true_eq]

theorem shouldFlag_iff_severity (reports : List Report) (nowMs : Int) :
    (shouldAutoFlag reports nowMs).shouldFlag = true ↔
      (shouldAutoFlag reports nowMs).severity ≠ Severity.none := by
  rw [shouldAutoFlag_eq_firstWindow]
  split_ifs <;> simp

theorem submitReport_ok_elim (st : ModState) (reporter : ReporterCtx) (w : ℚ)
    (nowMs : Int) (st2 : ModState) (resp : ReportResponse)
    (h : submitReport st reporter w nowMs = Except.ok (st2, resp)) :
    st2.reports = newReportOf reporter w nowMs :: st.reports ∧
    resp.autoFlagged =
      (shouldAutoFlag (newReportOf reporter w nowMs :: st.reports) nowMs).shouldFlag ∧
    st2.post.reportCount = st.post.reportCount + 1 ∧
    st2.post.totalReportScore =
      st.post.totalReportScore + (newReportOf reporter w nowMs).weightedScore ∧
    (st.post.isFlagged = true →
      st2.post.isFlagged = true ∧ st2.post.flagSeverity = st.post.flagSeverity) ∧
    (st.post.isFlagged = false →
      (st2.post.isFlagged = false ∧ st2.post.flagSeverity = st.post.flagSeverity ∧
        (shouldAutoFlag (newReportOf reporter w nowMs :: st.reports) nowMs).shouldFlag = false) ∨
      (st2.post.isFlagged = true ∧
        st2.post.flagSeverity =
          (shouldAutoFlag (newReportOf reporter w nowMs :: st.reports) nowMs).severity ∧
        (shouldAutoFlag (newReportOf reporter w nowMs :: st.reports) nowMs).shouldFlag = true)) := by
  unfold submitReport at h
  by_cases h1 : st.post.authorId = reporter.userId
  · rw [if_pos h1] at h
    simp at h
  · rw [if_neg h1] at h
    by_cases h2 : (st.reports.any fun r => r.reporterId == reporter.userId) = true
    · rw [if_pos h2] at h
      simp at h
    · rw [if_neg h2] at h
      simp only [Except.ok.injEq, Prod.mk.injEq] at h
      obtain ⟨hst, hresp⟩ := h
      subst hst
      subst hresp
      refine ⟨rfl, rfl, ?_, ?_, ?_, ?_⟩
      · dsimp only
        split <;> simp [PostState.addReport, PostState.flagPost]
      · dsimp only
        split <;> simp [PostState.addReport, PostState.flagPost, newReportOf]
      · intro hf
        dsimp only
        split
        · next hc =>
            rw [Bool.and_eq_true] at hc
            simp [PostState.addReport, hf] at hc
        · next hc =>
            simp [PostState.addReport, hf]
      · intro hf
        dsimp only
        split
        · next hc =>
            right
            rw [Bool.and_eq_true, Bool.not_eq_true'] at hc
            exact ⟨by simp [PostState.addReport, PostState.flagPost], rfl, hc.1⟩
        · next hc =>
            left
            rw [Bool.and_eq_true, Bool.not_eq_true', not_and] at hc
            refine ⟨by simp [PostState.addReport, hf], by simp [PostState.addReport], ?_⟩
            by_cases hsf : (shouldAutoFlag
                (newReportOf reporter w nowMs :: st.reports) nowMs).shouldFlag = true
            · exact absurd (by simp [PostState.addReport, hf]) (hc hsf)
            · simpa using hsf

theorem recencyOfAge_nonneg (a : ℚ) : 0 ≤ recencyOfAge a := by
  unfold recencyOfAge
  split_ifs <;> first | linarith | exact le_max_left _ _

theorem recencyOfAge_le_100 (a : ℚ) : recencyOfAge a ≤ 100 := by
  unfold recencyOfAge
  split_ifs <;> first | linarith | exact max_le (by linarith) (by linarith)

theorem recencyOfAge_of_le7 {x : ℚ} (h : x ≤ 7) : recencyOfAge x = 100 := by
  unfold recencyOfAge
  rw [if_pos h]

theorem recencyOfAge_of_mid {x : ℚ} (h1 : 7 < x) (h2 : x ≤ 30) :
    recencyOfAge x = 100 - (x - 7) * 2 := by
  unfold recencyOfAge
  rw [if_neg (not_le.mpr h1), if_pos h2]

theorem recencyOfAge_of_late {x : ℚ} (h1 : 30 < x) (h2 : x ≤ 90) :
    recencyOfAge x = 50 - (x - 30) * (1/2) := by
  unfold recencyOfAge
  rw [if_neg (not_le.mpr (by linarith)), if_neg (not_le.mpr h1), if_pos h2]

theorem recencyOfAge_of_old {x : ℚ} (h : 90 < x) :
    recencyOfAge x = max 0 (20 - (x - 90) * (1/10)) := by
  unfold recencyOfAge
  rw [if_neg (not_le.mpr (by linarith)), if_neg (not_le.mpr (by linarith)),
    if_neg (not_le.mpr h)]

theorem recencyOfAge_anti {a b : ℚ} (hab : a ≤ b) :
    recencyOfAge b ≤ recencyOfAge a := by
  rcases le_or_lt b 7 with hb7 | hb7
  · rw [recencyOfAge_of_le7 hb7, recencyOfAge_of_le7 (le_trans hab hb7)]
  · rcases le_or_lt b 30 with hb30 | hb30
    · rw [recencyOfAge_of_mid hb7 hb30]
      rcases le_or_lt a 7 with ha7 | ha7
      · rw [recencyOfAge_of_le7 ha7]
        linarith
      · rw [recencyOfAge_of_mid ha7 (le_trans hab hb30)]
        linarith
    · rcases le_or_lt b 90 with hb90 | hb90
      · rw [recencyOfAge_of_late hb30 hb90]
        rcases le_or_lt a 7 with ha7 | ha7
        · rw [recencyOfAge_of_le7 ha7]
          linarith
        · rcases le_or_lt a 30 with ha30 | ha30
          · rw [recencyOfAge_of_mid ha7 ha30]
            linarith
          · rw [recencyOfAge_of_late ha30 (le_trans hab hb90)]
            linarith
      · rw [recencyOfAge_of_old hb90]
        have hv : max 0 (20 - (b - 90) * (1/10)) ≤ 20 :=
          max_le (by norm_num) (by linarith)
        rcases le_or_lt a 7 with ha7 | ha7
        · rw [recencyOfAge_of_le7 ha7]
          linarith
        · rcases le_or_lt a 30 with ha30 | ha30
          · rw [recencyOfAge_of_mid ha7 ha30]
            linarith
          · rcases le_or_lt a 90 with ha90 | ha90
            · rw [recencyOfAge_of_late ha30 ha90]
              linarith
            · rw [recencyOfAge_of_old ha90]
              exact max_le (le_max_left _ _)
                (le_trans (by linarith) (le_max_right _ _))

theorem credibility_default_thirty_days (nowMs : Int) (v : Bool) :
    calculateCredibilityWeight nowMs (nowMs - 30 * 24 * 60 * 60 * 1000) v =
      if v then 9/4 else 3/2 := by
  unfold calculateCredibilityWeight
  have h30 : ((nowMs : ℚ) - ((nowMs - 30 * 24 * 60 * 60 * 1000 : Int) : ℚ)) /
      (1000 * 60 * 60 * 24) = 30 := by
    push_cast
    ring
  rw [h30]
  norm_num

theorem foldl_preserves {α β : Type} (P : α → Prop) (f : α → β → α)
    (hf : ∀ a b, P a → P (f a b)) :
    ∀ (l : List β) (a : α), P a → P (l.foldl f a) := by
  intro l
  induction l with
  | nil => intro a ha; exact ha
  | cons b tl ih => intro a ha; exact ih (f a b) (hf a b ha)

theorem addUnique_nodup {acc : List String} {s : String} (h : acc.Nodup) :
    (addUnique acc s).Nodup := by
  unfold addUnique
  split_ifs with hs
  · exact h
  · simp [List.nodup_append, h, hs]

theorem placeLocs_nodup (acc : List String) (p : Place) (h : acc.Nodup) :
    (placeLocs acc p).Nodup := by
  simp only [placeLocs]
  split_ifs <;>
    first
    | exact h
    | exact addUnique_nodup h
    | exact addUnique_nodup (addUnique_nodup h)

theorem dayLocs_nodup (acc : List String) (d : DayPlan) (h : acc.Nodup) :
    (dayLocs acc d).Nodup := by
  simp only [dayLocs]
  have h1 : (d.places.foldl placeLocs acc).Nodup :=
    foldl_preserves List.Nodup placeLocs (fun a b => placeLocs_nodup a b) d.places acc h
  split_ifs <;> first | exact h1 | exact addUnique_nodup h1

theorem itineraryLocs_nodup (acc : List String) (it : Itinerary) (h : acc.Nodup) :
    (itineraryLocs acc it).Nodup := by
  simp only [itineraryLocs]
  apply foldl_preserves (fun l => l.Nodup)
      (fun a n => if n ≠ "" then addUnique a (normToken n) else a)
  · intro a b hb
    split_ifs <;> first | exact hb | exact addUnique_nodup hb
  · apply foldl_preserves List.Nodup dayLocs (fun a b => dayLocs_nodup a b)
    split_ifs <;>
      first
      | exact h
      | exact addUnique_nodup h
      | exact addUnique_nodup (addUnique_nodup h)

theorem extractLocations_nodup (itineraries : List Itinerary) :
    (extractLocationsFromItineraries itineraries).Nodup := by
  unfold extractLocationsFromItineraries
  exact foldl_preserves List.Nodup itineraryLocs
    (fun a b => itineraryLocs_nodup a b) itineraries [] List.nodup_nil

theorem slowSubmit_eval :
    submitReport slowFlaggedState slowReporter 3 slowNow =
      Except.ok (slowAfterState, slowResponse) := by
  norm_num [submitReport, slowFlaggedState, slowReporter, slowNow, slowAfterState,
    slowResponse, pendingReport, msPerDay, msPerHour, calculateCredibilityWeight,
    shouldAutoFlag, getPostReportStats, statsMeets, nonDismissed, inWindow,
    PostState.addReport, PostState.flagPost, List.filter]

theorem burstSubmit_eval :
    submitReport burstFlaggedState burstReporter 3 burstNow =
      Except.ok (burstAfterState, burstResponse) := by
  norm_num [submitReport, burstFlaggedState, burstReporter, burstNow, burstAfterState,
    burstResponse, pendingReport, msPerDay, msPerHour, calculateCredibilityWeight,
    shouldAutoFlag, getPostReportStats, statsMeets, nonDismissed, inWindow,
    PostState.addReport, PostState.flagPost, List.filter]

theorem quietSubmit_eval :
    submitReport quietState plainReporter 1 quietNow =
      Except.ok (quietAfterState, quietResponse) := by
  norm_num [submitReport, quietState, plainReporter, quietNow, quietAfterState,
    quietResponse, msPerDay, msPerHour, calculateCredibilityWeight,
    shouldAutoFlag, getPostReportStats, statsMeets, nonDismissed, inWindow,
    PostState.addReport, PostState.flagPost, List.filter]

theorem agelessSubmit_eval :
    submitReport quietState agelessReporter 2 quietNow =
      Except.ok (agelessAfterState, agelessResponse) := by
  norm_num [submitReport, quietState, agelessReporter, quietNow, agelessAfterState,
    agelessResponse, msPerDay, msPerHour, calculateCredibilityWeight,
    shouldAutoFlag, getPostReportStats, statsMeets, nonDismissed, inWindow,
    PostState.addReport, PostState.flagPost, List.filter]

theorem burstEscalation_eval :
    (shouldAutoFlag burstAfterState.reports burstNow).severity = Severity.critical := by
  norm_num [burstAfterState, burstFlaggedState, burstNow, pendingReport, msPerDay,
    msPerHour, shouldAutoFlag, getPostReportStats, statsMeets, nonDismissed,
    inWindow, List.filter]

/-- C5: the credibility weight equals the account-age tier weight
(< 7 days: 0.5, 7 to < 30: 1.0, 30 to < 90: 1.5, >= 90 days: 2.0, with the
age measured in fractional days at report time), multiplied by 1.5 for a
verified reporter; a verified 100-day-old account yields 3.0 and an
unverified 3-day-old account yields 0.5. -/
theorem credibility_weight_tier_schedule (nowMs createdMs : Int) (verified : Bool) :
    calculateCredibilityWeight nowMs createdMs verified =
      (if ((nowMs : ℚ) - (createdMs : ℚ)) / (1000 * 60 * 60 * 24) < 7 then 1/2
       else if ((nowMs : ℚ) - (createdMs : ℚ)) / (1000 * 60 * 60 * 24) < 30 then 1
       else if ((nowMs : ℚ) - (createdMs : ℚ)) / (1000 * 60 * 60 * 24) < 90 then 3/2
       else 2) * (if verified then 3/2 else 1) ∧
    calculateCredibilityWeight (100 * 86400000) 0 true = 3 ∧
    calculateCredibilityWeight (3 * 86400000) 0 false = 1/2 := by
  refine ⟨?_, by norm_num [calculateCredibilityWeight],
    by norm_num [calculateCredibilityWeight]⟩
  have key : ∀ x : ℚ,
      (if ⌊x⌋ < 7 then (1/2 : ℚ) else if ⌊x⌋ < 30 then 1
       else if ⌊x⌋ < 90 then 3/2 else 2) =
      (if x < 7 then (1/2 : ℚ) else if x < 30 then 1
       else if x < 90 then 3/2 else 2) := by
    intro x
    have i7 : (⌊x⌋ < (7 : ℤ)) ↔ x < 7 := by
      rw [Int.floor_lt]
      norm_num
    have i30 : (⌊x⌋ < (30 : ℤ)) ↔ x < 30 := by
      rw [Int.floor_lt]
      norm_num
    have i90 : (⌊x⌋ < (90 : ℤ)) ↔ x < 90 := by
      rw [Int.floor_lt]
      norm_num
    simp only [i7, i30, i90]
  simp only [calculateCredibilityWeight, key]
  cases verified <;> simp

/-- C6: the recency score is within [0, 100], non-increasing in the age,
equal to 100 at age 0, and follows the piecewise-linear schedule 100 on
[0, 7], 100 - (age-7)*2 on (7, 30], 50 - (age-30)*0.5 on (30, 90], and
max(0, 20 - (age-90)*0.1) beyond 90, with the age computed as a continuous
fractional-day value from the timestamps. -/
theorem recency_score_schedule (a : ℚ) (ha : 0 ≤ a) :
    0 ≤ recencyOfAge a ∧ recencyOfAge a ≤ 100 ∧
    recencyOfAge 0 = 100 ∧
    (∀ b : ℚ, a ≤ b → recencyOfAge b ≤ recencyOfAge a) ∧
    (a ≤ 7 → recencyOfAge a = 100) ∧
    (7 < a → a ≤ 30 → recencyOfAge a = 100 - (a - 7) * 2) ∧
    (30 < a → a ≤ 90 → recencyOfAge a = 50 - (a - 30) * (1/2)) ∧
    (90 < a → recencyOfAge a = max 0 (20 - (a - 90) * (1/10))) ∧
    (∀ nowMs createdAtMs : Int,
      calculateRecencyScore nowMs createdAtMs =
        recencyOfAge ((nowMs - createdAtMs : ℚ) / (1000 * 60 * 60 * 24))) :=
  ⟨recencyOfAge_nonneg a, recencyOfAge_le_100 a,
    recencyOfAge_of_le7 (by norm_num),
    fun _ hb => recencyOfAge_anti hb,
    fun h => recencyOfAge_of_le7 h,
    fun h1 h2 => recencyOfAge_of_mid h1 h2,
    fun h1 h2 => recencyOfAge_of_late h1 h2,
    fun h => recencyOfAge_of_old h,
    fun _ _ => rfl⟩

theorem recency_score_schedule_witness :
    (0 : ℚ) ≤ 35 ∧ 0 ≤ recencyOfAge 35 ∧ recencyOfAge 35 ≤ 100 ∧
    recencyOfAge 40 ≤ recencyOfAge 35 ∧ recencyOfAge 35 = 50 - (35 - 30) * (1/2) := by
  have h := recency_score_schedule 35 (by norm_num)
  exact ⟨by norm_num, h.1, h.2.1, h.2.2.2.1 40 (by norm_num),
    h.2.2.2.2.2.2.1 (by norm_num) (by norm_num)⟩

/-- C7: the flag penalty is multiplicative and applied after all additive
contributions: the score equals (0.5 if flagged else 1) x the additive sum
in the personalized path and (0.3 if flagged else 1) x the additive sum in
the generic path; equivalently, flagging a post halves (resp. multiplies by
0.3) the score it would get unflagged. -/
theorem flag_penalty_multiplicative (nowMs : Int) (post : RecPost)
    (locs : List String) (prefs : UserPreferences) :
    calculatePersonalizedScore nowMs post locs prefs =
      (if post.isFlagged then (1/2 : ℚ) else 1) * personalizedAdditive nowMs post locs ∧
    calculateGenericScore nowMs post =
      (if post.isFlagged then (3/10 : ℚ) else 1) * genericAdditive nowMs post ∧
    calculatePersonalizedScore nowMs { post with isFlagged := true } locs prefs =
      (1/2) * calculatePersonalizedScore nowMs { post with isFlagged := false } locs prefs ∧
    calculateGenericScore nowMs { post with isFlagged := true } =
      (3/10) * calculateGenericScore nowMs { post with isFlagged := false } := by
  refine ⟨?_, ?_, ?_, ?_⟩
  · cases hpf : post.isFlagged <;>
      simp [calculatePersonalizedScore, personalizedAdditive, hpf] <;>
      ring
  · cases hpf : post.isFlagged <;>
      simp [calculateGenericScore, genericAdditive, hpf] <;>
      ring
  · simp [calculatePersonalizedScore, calculateEngagementScore]
    ring
  · simp [calculateGenericScore, calculateEngagementScore]
    ring

/-- C1: after every successful report submission the escalation decision is
evaluated over the report history including the report just persisted, and
the decision is the first-match over the three sliding windows of
non-dismissed report scores: 1-hour total >= 15 gives critical, else
24-hour total >= 30 gives high, else 7-day total >= 50 gives moderate,
else no flag and severity none. -/
theorem report_escalation_three_windows :
    (∀ (reports : List Report) (nowMs : Int),
      (shouldAutoFlag reports nowMs).severity =
        (if 15 ≤ windowScore reports nowMs 1 then Severity.critical
         else if 30 ≤ windowScore reports nowMs 24 then Severity.high
         else if 50 ≤ windowScore reports nowMs 168 then Severity.moderate
         else Severity.none) ∧
      ((shouldAutoFlag reports nowMs).shouldFlag = true ↔
        (shouldAutoFlag reports nowMs).severity ≠ Severity.none)) ∧
    (∀ (st : ModState) (reporter : ReporterCtx) (w : ℚ) (nowMs : Int)
        (st2 : ModState) (resp : ReportResponse),
      submitReport st reporter w nowMs = Except.ok (st2, resp) →
        st2.reports = newReportOf reporter w nowMs :: st.reports ∧
        (newReportOf reporter w nowMs).createdAt = nowMs ∧
        resp.autoFlagged = (shouldAutoFlag st2.reports nowMs).shouldFlag) := by
  constructor
  · intro reports nowMs
    constructor
    · rw [shouldAutoFlag_eq_firstWindow]
      split_ifs <;> rfl
    · exact shouldFlag_iff_severity reports nowMs
  · intro st reporter w nowMs st2 resp h
    obtain E := submitReport_ok_elim st reporter w nowMs st2 resp h
    refine ⟨E.1, rfl, ?_⟩
    rw [E.1]
    exact E.2.1

theorem report_escalation_three_windows_witness :
    quietAfterState.reports = newReportOf plainReporter 1 quietNow :: quietState.reports ∧
    (newReportOf plainReporter 1 quietNow).createdAt = quietNow ∧
    quietResponse.autoFlagged =
      (shouldAutoFlag quietAfterState.reports quietNow).shouldFlag :=
  report_escalation_three_windows.2 quietState plainReporter 1 quietNow
    quietAfterState quietResponse quietSubmit_eval

/-- C2 counterexample: `burstFlaggedState` is flagged `moderate`; the next
report makes the escalation check return `critical` (a strictly higher
severity), the submission succeeds (the report counter moves to 8), yet the
post is not re-flagged: its severity stays `moderate`. -/
theorem reflag_higher_severity_counterexample :
    burstFlaggedState.post.isFlagged = true ∧
    burstFlaggedState.post.flagSeverity = Severity.moderate ∧
    stepReport burstFlaggedState burstArgs = burstAfterState ∧
    (shouldAutoFlag burstAfterState.reports burstNow).severity = Severity.critical ∧
    sevRank Severity.moderate < sevRank Severity.critical ∧
    burstAfterState.post.reportCount = 8 ∧
    burstAfterState.post.flagSeverity = Severity.moderate := by
  refine ⟨rfl, rfl, ?_, burstEscalation_eval, by norm_num [sevRank], rfl, rfl⟩
  simp [stepReport, burstArgs, burstSubmit_eval]

/-- C2 amended: a report submission against an already-flagged item never
changes the flag state, even when the escalation check yields a strictly
higher severity: the item stays flagged with its previous severity (the
route only calls `flagPost` when the post is not flagged). -/
theorem flagged_post_never_reflagged (st : ModState) (reporter : ReporterCtx)
    (w : ℚ) (nowMs : Int) (st2 : ModState) (resp : ReportResponse)
    (hflag : st.post.isFlagged = true)
    (h : submitReport st reporter w nowMs = Except.ok (st2, resp)) :
    st2.post.isFlagged = true ∧ st2.post.flagSeverity = st.post.flagSeverity :=
  (submitReport_ok_elim st reporter w nowMs st2 resp h).2.2.2.2.1 hflag

theorem flagged_post_never_reflagged_witness :
    burstAfterState.post.isFlagged = true ∧
    burstAfterState.post.flagSeverity = burstFlaggedState.post.flagSeverity :=
  flagged_post_never_reflagged burstFlaggedState burstReporter 3 burstNow
    burstAfterState burstResponse rfl burstSubmit_eval

/-- C3: a submission by the item's author or by a reporter who already
reported the item is rejected with an error before anything is written: no
report is created and the state (reportCount, totalReportScore, flag
fields) is untouched. -/
theorem duplicate_or_self_report_rejected (st : ModState) (reporter : ReporterCtx)
    (w : ℚ) (nowMs : Int)
    (h : st.post.authorId = reporter.userId ∨
      (st.reports.any fun r => r.reporterId == reporter.userId) = true) :
    submitReport st reporter w nowMs =
      Except.error (if st.post.authorId = reporter.userId then ReportError.selfReport
        else ReportError.alreadyReported) ∧
    stepReport st { reporter := reporter, reasonWeight := w, nowMs := nowMs } = st := by
  by_cases h1 : st.post.authorId = reporter.userId
  · have hs : submitReport st reporter w nowMs = Except.error ReportError.selfReport := by
      unfold submitReport
      rw [if_pos h1]
    refine ⟨?_, by simp [stepReport, hs]⟩
    rw [if_pos h1]
    exact hs
  · have h2 := h.resolve_left h1
    have hs : submitReport st reporter w nowMs =
        Except.error ReportError.alreadyReported := by
      unfold submitReport
      rw [if_neg h1, if_pos h2]
    refine ⟨?_, by simp [stepReport, hs]⟩
    rw [if_neg h1]
    exact hs

theorem duplicate_or_self_report_rejected_witness :
    (submitReport dupState plainReporter 1 quietNow =
      Except.error (if dupState.post.authorId = plainReporter.userId then
        ReportError.selfReport else ReportError.alreadyReported) ∧
    stepReport dupState { reporter := plainReporter, reasonWeight := 1, nowMs := quietNow }
      = dupState) ∧
    (submitReport quietState authorReporter 1 quietNow =
      Except.error (if quietState.post.authorId = authorReporter.userId then
        ReportError.selfReport else ReportError.alreadyReported) ∧
    stepReport quietState { reporter := authorReporter, reasonWeight := 1, nowMs := quietNow }
      = quietState) :=
  ⟨duplicate_or_self_report_rejected dupState plainReporter 1 quietNow
      (Or.inr (by decide)),
    duplicate_or_self_report_rejected quietState authorReporter 1 quietNow
      (Or.inl rfl)⟩

/-- C4 counterexample: against the already-flagged `slowFlaggedState`, the
submission still meets the 7-day threshold, the flag state does not change,
yet the response reports `autoFlagged = true` (the route returns
`autoFlagResult.shouldFlag`, not whether the flag state changed). -/
theorem autoflagged_despite_unchanged_flag_counterexample :
    submitReport slowFlaggedState slowReporter 3 slowNow =
      Except.ok (slowAfterState, slowResponse) ∧
    slowFlaggedState.post.isFlagged = true ∧
    slowResponse.autoFlagged = true ∧
    slowAfterState.post.isFlagged = slowFlaggedState.post.isFlagged ∧
    slowAfterState.post.flagSeverity = slowFlaggedState.post.flagSeverity :=
  ⟨slowSubmit_eval, rfl, rfl, rfl, rfl⟩

/-- C4 amended: `autoFlagged` in the response is true iff the escalation
check over the post-submission report history meets a threshold; it does
not indicate that this submission changed the flag state - for an
already-flagged item the flag state is unchanged whatever `autoFlagged`
says. -/
theorem autoflagged_reflects_threshold_not_transition (st : ModState)
    (reporter : ReporterCtx) (w : ℚ) (nowMs : Int) (st2 : ModState)
    (resp : ReportResponse)
    (h : submitReport st reporter w nowMs = Except.ok (st2, resp)) :
    (resp.autoFlagged = true ↔
      (shouldAutoFlag st2.reports nowMs).severity ≠ Severity.none) ∧
    (st.post.isFlagged = true →
      st2.post.isFlagged = st.post.isFlagged ∧
      st2.post.flagSeverity = st.post.flagSeverity) := by
  obtain E := submitReport_ok_elim st reporter w nowMs st2 resp h
  constructor
  · rw [E.2.1, ← E.1]
    exact shouldFlag_iff_severity st2.reports nowMs
  · intro hf
    obtain ⟨hA, hB⟩ := E.2.2.2.2.1 hf
    exact ⟨by rw [hA, hf], hB⟩

theorem autoflagged_reflects_threshold_not_transition_witness :
    (slowResponse.autoFlagged = true ↔
      (shouldAutoFlag slowAfterState.reports slowNow).severity ≠ Severity.none) ∧
    (slowFlaggedState.post.isFlagged = true →
      slowAfterState.post.isFlagged = slowFlaggedState.post.isFlagged ∧
      slowAfterState.post.flagSeverity = slowFlaggedState.post.flagSeverity) :=
  autoflagged_reflects_threshold_not_transition slowFlaggedState slowReporter 3
    slowNow slowAfterState slowResponse slowSubmit_eval

/-- C8 counterexample: one itinerary with no extractable locations or
preferences yields an empty derived profile, yet the ranking branch picks
the Personalized scorer - the branch tests the itinerary list, not the
profile. -/
theorem profile_emptiness_counterexample :
    profileEmpty [emptyItinerary] ∧
    rankingPath [emptyItinerary] = RankPath.personalized :=
  ⟨⟨rfl, rfl⟩, rfl⟩

/-- C8 amended: the scoring path is a pure function of the emptiness of the
fetched itinerary list: no itineraries gives the Generic scorer (and an
empty derived profile), at least one itinerary gives the Personalized
scorer, even when the derived profile is empty; the extracted location
tokens are deduplicated. -/
theorem ranking_path_by_itinerary_list (itins : List Itinerary) :
    rankingPath [] = RankPath.generic ∧
    profileEmpty [] ∧
    (itins ≠ [] → rankingPath itins = RankPath.personalized) ∧
    (extractLocationsFromItineraries itins).Nodup := by
  refine ⟨rfl, ⟨rfl, rfl⟩, ?_, extractLocations_nodup itins⟩
  intro hne
  unfold rankingPath
  rw [if_pos (by simpa using List.length_pos.mpr hne)]

theorem ranking_path_by_itinerary_list_witness :
    ([emptyItinerary] : List Itinerary) ≠ [] ∧
    rankingPath [emptyItinerary] = RankPath.personalized :=
  ⟨by simp, (ranking_path_by_itinerary_list [emptyItinerary]).2.2.1 (by simp)⟩

theorem stepReport_flag_monotone (st : ModState) (a : SubmitArgs)
    (hwf : WellFormedFlag st) :
    sevRank st.post.flagSeverity ≤ sevRank (stepReport st a).post.flagSeverity ∧
    WellFormedFlag (stepReport st a) ∧
    (st.post.isFlagged = true →
      (stepReport st a).post.isFlagged = true ∧
      (stepReport st a).post.flagSeverity = st.post.flagSeverity) := by
  unfold stepReport
  cases hsub : submitReport st a.reporter a.reasonWeight a.nowMs with
  | error e => exact ⟨le_refl _, hwf, fun hf => ⟨hf, rfl⟩⟩
  | ok out =>
    obtain ⟨st2, resp⟩ := out
    obtain E := submitReport_ok_elim st a.reporter a.reasonWeight a.nowMs st2 resp hsub
    dsimp only
    by_cases hf : st.post.isFlagged = true
    · obtain ⟨h1, h2⟩ := E.2.2.2.2.1 hf
      refine ⟨le_of_eq (by rw [h2]), ?_, fun _ => ⟨h1, h2⟩⟩
      intro hff
      simp [h1] at hff
    · have hf2 : st.post.isFlagged = false := by
        revert hf
        cases st.post.isFlagged <;> simp
      have hsev : st.post.flagSeverity = Severity.none := hwf hf2
      rcases E.2.2.2.2.2 hf2 with ⟨h1, h2, _⟩ | ⟨h1, h2, _⟩
      · refine ⟨le_of_eq (by rw [h2]), ?_, fun hff => absurd hff (by simp [hf2])⟩
        intro _
        rw [h2, hsev]
      · refine ⟨?_, ?_, fun hff => absurd hff (by simp [hf2])⟩
        · rw [hsev]
          exact Nat.zero_le _
        · intro hff
          simp [h1] at hff

/-- C9: across any sequence of report submissions, starting from a state
where an unflagged post has severity `none`, the flag severity never
decreases in the order none < moderate < high < critical; in particular an
already-flagged post (e.g. critical) keeps its severity unchanged whatever
later reports arrive. -/
theorem flag_severity_never_decreases (st : ModState) (args : List SubmitArgs)
    (hwf : WellFormedFlag st) :
    sevRank st.post.flagSeverity ≤ sevRank (runReports st args).post.flagSeverity ∧
    WellFormedFlag (runReports st args) ∧
    (st.post.isFlagged = true →
      (runReports st args).post.flagSeverity = st.post.flagSeverity) := by
  induction args generalizing st with
  | nil => exact ⟨le_refl _, hwf, fun _ => rfl⟩
  | cons a rest ih =>
    obtain ⟨s1, s2, s3⟩ := stepReport_flag_monotone st a hwf
    obtain ⟨r1, r2, r3⟩ := ih (stepReport st a) s2
    refine ⟨le_trans s1 r1, r2, fun hf => ?_⟩
    obtain ⟨hA, hB⟩ := s3 hf
    show (runReports (stepReport st a) rest).post.flagSeverity = st.post.flagSeverity
    rw [r3 hA, hB]

theorem flag_severity_never_decreases_witness :
    (sevRank quietState.post.flagSeverity ≤
      sevRank (runReports quietState [burstArgs]).post.flagSeverity) ∧
    (sevRank burstFlaggedState.post.flagSeverity ≤
      sevRank (runReports burstFlaggedState [burstArgs]).post.flagSeverity) ∧
    (burstFlaggedState.post.isFlagged = true →
      (runReports burstFlaggedState [burstArgs]).post.flagSeverity =
        burstFlaggedState.post.flagSeverity) :=
  ⟨(flag_severity_never_decreases quietState [burstArgs] (fun _ => rfl)).1,
    (flag_severity_never_decreases burstFlaggedState [burstArgs] (by intro h; cases h)).1,
    (flag_severity_never_decreases burstFlaggedState [burstArgs] (by intro h; cases h)).2.2⟩

/-- C10: when the reporter context carries no account-creation timestamp,
the submission substitutes a timestamp exactly 30 days before now, stores
it on the created Report, and weighs the reporter at the 30-90-day trusted
tier: credibility 1.5 unverified, 2.25 verified, regardless of the true
account age. -/
theorem missing_account_age_defaults_trusted (st : ModState)
    (reporter : ReporterCtx) (w : ℚ) (nowMs : Int) (st2 : ModState)
    (resp : ReportResponse)
    (hnone : reporter.createdAt = Option.none)
    (h : submitReport st reporter w nowMs = Except.ok (st2, resp)) :
    (st2.reports.map Report.accountCreatedAt).head? =
      Option.some (nowMs - 30 * 24 * 60 * 60 * 1000) ∧
    (st2.reports.map Report.credibilityWeight).head? =
      Option.some (if reporter.isVerified then (9/4 : ℚ) else 3/2) ∧
    st2.reports.tail = st.reports := by
  obtain E := submitReport_ok_elim st reporter w nowMs st2 resp h
  rw [E.1]
  refine ⟨?_, ?_, rfl⟩
  · simp [newReportOf, hnone]
  · simp only [newReportOf, hnone, Option.getD, List.map_cons, List.head?_cons,
      Option.some.injEq]
    exact credibility_default_thirty_days nowMs reporter.isVerified

theorem missing_account_age_defaults_trusted_witness :
    (agelessAfterState.reports.map Report.accountCreatedAt).head? =
      Option.some (quietNow - 30 * 24 * 60 * 60 * 1000) ∧
    (agelessAfterState.reports.map Report.credibilityWeight).head? =
      Option.some (if agelessReporter.isVerified then (9/4 : ℚ) else 3/2) ∧
    agelessAfterState.reports.tail = quietState.reports :=
  missing_account_age_defaults_trusted quietState agelessReporter 2 quietNow
    agelessAfterState agelessResponse rfl agelessSubmit_eval
